import Mathlib

/-!
Shallow embedding of the stripe-mcp server core (src/index.ts).

JavaScript strings are modelled as `List Char`; JS string operations
(`split(":")`, `trim()`, `join(":")`, `includes(sub)`, `startsWith(p)`,
`replace(/"/g, '\\"')`) are modelled by executable Lean functions below.
Untyped/optional tool arguments are `Option` values, with JS falsiness of
`undefined` and `""` (and `0` for numbers) made explicit at each use site,
mirroring the source. Thrown errors are modelled with `Except`.
-/

namespace StripeMcp

/-- JS `s.split(sep)` for a one-character separator: always returns at least
one piece; `"".split(":") = [""]`. -/
def splitOnChar (sep : Char) : List Char → List (List Char)
  | [] => [[]]
  | c :: cs =>
    let rest := splitOnChar sep cs
    if c = sep then [] :: rest
    else (c :: rest.headI) :: rest.tail

/-- JS `Array.join(sep)` for a one-character separator. -/
def joinSep (sep : Char) : List (List Char) → List Char
  | [] => []
  | [x] => x
  | x :: xs => x ++ sep :: joinSep sep xs

/-- JS `String.trim()`: strip whitespace from both ends. -/
def jsTrim (s : List Char) : List Char :=
  ((s.dropWhile Char.isWhitespace).reverse.dropWhile Char.isWhitespace).reverse

/-- JS `s.includes(sub)` (case-sensitive substring test): `sub` occurs as a
contiguous run of `s`. -/
def jsIncludes : List Char → List Char → Bool
  | [], sub => sub.isEmpty
  | c :: cs, sub => sub.isPrefixOf (c :: cs) || jsIncludes cs sub

/-- JS `value.replace(/"/g, '\\"')` from `buildMetadataSearchQuery`:
every double-quote character is replaced by backslash + double quote. -/
def escapeQuotes : List Char → List Char
  | [] => []
  | c :: cs => if c = '"' then '\\' :: '"' :: escapeQuotes cs else c :: escapeQuotes cs

/-- Error message thrown by `buildMetadataSearchQuery` when the input has no
separator (src/index.ts:127). -/
def invalidFormatMsg : List Char :=
  "Invalid metadata format. Expected 'key:value' (e.g., 'order_id:12345')".toList

/-- Error message thrown by `buildMetadataSearchQuery` when key or value is
empty after trimming (src/index.ts:136). -/
def emptyKeyValueMsg : List Char :=
  "Metadata key and value cannot be empty".toList

/-- `buildMetadataSearchQuery` (src/index.ts:124-144): split the input on ":",
require at least two parts, take `parts[0]` trimmed as key and
`parts.slice(1).join(":")` trimmed as value, require both non-empty, escape
double quotes in the value, and emit `metadata['key']:'value'`.
Thrown `Error`s are modelled as `Except.error` carrying the message. -/
def buildMetadataSearchQuery (metadataString : List Char) :
    Except (List Char) (List Char) :=
  let parts := splitOnChar ':' metadataString
  if parts.length < 2 then
    .error invalidFormatMsg
  else
    let key := jsTrim parts.headI
    let value := jsTrim (joinSep ':' (parts.drop 1))
    if key = [] ∨ value = [] then
      .error emptyKeyValueMsg
    else
      .ok ("metadata['".toList ++ key ++ "']:'".toList ++ escapeQuotes value
            ++ "'".toList)

/-- The MCP error codes used by the handlers (`ErrorCode` from the SDK). -/
inductive ErrKind where
  | InvalidParams
  | InternalError
  | MethodNotFound
  | InvalidRequest
deriving DecidableEq

/-- A thrown `McpError`: an error code plus a human-readable message. -/
structure McpErr where
  code : ErrKind
  message : List Char
deriving DecidableEq

/-- The fields of a `Stripe.errors.StripeError` that the handlers inspect:
discriminating `type` string, message, optional code, HTTP status and
request id (src/index.ts:488-509). -/
structure StripeError where
  type : List Char
  message : List Char
  errCode : Option (List Char)
  statusCode : Option Int
  requestId : Option (List Char)

/-- A value thrown inside a handler's `try` block: an already-shaped
`McpError`, a Stripe SDK error, a plain JS `Error` (name and message), or a
non-`Error` value. -/
inductive Thrown where
  | mcp (e : McpErr)
  | stripe (e : StripeError)
  | jsError (name message : List Char)
  | nonError

/-- The `catch` block of the `search_invoices` handler
(src/index.ts:368-399): re-throw `McpError`s; map Stripe invalid-request
errors to `InvalidParams` and other Stripe errors to `InternalError`; map a
plain `Error` whose message includes `"metadata"` to `InvalidParams` with the
message verbatim; everything else to `InternalError` with an
`Unexpected error:` prefix. -/
def classifySearchError : Thrown → McpErr
  | .mcp e => e
  | .stripe e =>
    if e.type = "StripeInvalidRequestError".toList then
      ⟨.InvalidParams, "Invalid search query: ".toList ++ e.message⟩
    else
      ⟨.InternalError, "Stripe API error: ".toList ++ e.message⟩
  | .jsError _ message =>
    if jsIncludes message "metadata".toList then
      ⟨.InvalidParams, message⟩
    else
      ⟨.InternalError, "Unexpected error: ".toList ++ message⟩
  | .nonError =>
    ⟨.InternalError, "Unexpected error: Unknown error".toList⟩

/-- The limit read from the untyped arguments by the `search_invoices`
handler (src/index.ts:324): JS `(args?.limit as number | undefined) || 10`,
so a missing or zero (falsy) limit becomes the default 10. -/
def jsLimitOrDefault (limitArg : Option Int) : Int :=
  match limitArg with
  | none => 10
  | some n => if n = 0 then 10 else n

/-- The parameters of the remote `stripe.invoices.search` call built by the
`search_invoices` handler (src/index.ts:340-349); the constant
`expand: ["data.customer"]` field is omitted. -/
structure InvoiceSearchParams where
  query : List Char
  limit : Int
  page : Option (List Char)
deriving DecidableEq

/-- The `search_invoices` handler up to the remote call
(src/index.ts:322-352): read `metadata`/`limit`/`page` from the untyped
arguments (JS `|| 10` default for a falsy limit), fail `InvalidParams` when
`metadata` is missing or empty, build the query (classifying a builder error
through the catch block), clamp the limit with `Math.min(limit, 100)`, and
attach the page cursor only when truthy. Returns the remote request that
would be issued. -/
def search_invoices (metadataArg : Option (List Char)) (limitArg : Option Int)
    (pageArg : Option (List Char)) : Except McpErr InvoiceSearchParams :=
  if metadataArg = none ∨ metadataArg = some [] then
    .error ⟨.InvalidParams, "Missing required parameter: metadata".toList⟩
  else
    match buildMetadataSearchQuery (metadataArg.getD []) with
    | .error msg => .error (classifySearchError (.jsError "Error".toList msg))
    | .ok q =>
      .ok { query := q
            limit := min (jsLimitOrDefault limitArg) 100
            page :=
              match pageArg with
              | some p => if p = [] then none else some p
              | none => none }

/-- The fields of a fetched `Stripe.Invoice` that the credit-note handler
uses: `total` (minor units) and `currency`. -/
structure Invoice where
  total : Int
  currency : List Char
deriving DecidableEq

/-- The parameters of the remote `stripe.creditNotes.create` call
(src/index.ts:451-463). -/
structure CreditNoteCreateParams where
  invoice : List Char
  amount : Int
  memo : Option (List Char)
  reason : Option (List Char)
deriving DecidableEq

/-- The fixed reason enum of `create_credit_note` (src/index.ts:426-431). -/
def validReasons : List (List Char) :=
  ["duplicate".toList, "fraudulent".toList, "order_change".toList,
   "product_unsatisfactory".toList]

/-- The local validation of `create_credit_note` (src/index.ts:408-438):
fail `InvalidParams` when `invoice_id` is missing or empty (falsy), when it
does not start with `"in_"`, or when a truthy `reason` is not in the fixed
enum. -/
def validateCreditNoteArgs (invoiceIdArg : Option (List Char))
    (reasonArg : Option (List Char)) : Except McpErr Unit :=
  if invoiceIdArg = none ∨ invoiceIdArg = some [] then
    .error ⟨.InvalidParams, "Missing required parameter: invoice_id".toList⟩
  else if ("in_".toList.isPrefixOf (invoiceIdArg.getD [])) = false then
    .error ⟨.InvalidParams,
      "Invalid invoice_id format. Invoice IDs must start with 'in_'".toList⟩
  else
    match reasonArg with
    | some r =>
      if r = [] then .ok ()
      else if r ∈ validReasons then .ok ()
      else .error ⟨.InvalidParams,
        ("Invalid reason. Must be one of: duplicate, fraudulent, "
          ++ "order_change, product_unsatisfactory").toList⟩
    | none => .ok ()

/-- Construction of the credit-note creation request
(src/index.ts:451-463): `invoice` is the validated id, `amount` is the
fetched invoice's total, and `memo`/`reason` are attached only when truthy. -/
def buildCreditNoteParams (invoiceId : List Char)
    (memoArg reasonArg : Option (List Char)) (invoice : Invoice) :
    CreditNoteCreateParams :=
  { invoice := invoiceId
    amount := invoice.total
    memo :=
      match memoArg with
      | some m => if m = [] then none else some m
      | none => none
    reason :=
      match reasonArg with
      | some r => if r = [] then none else some r
      | none => none }

/-- The detail line built for a Stripe error in the credit-note handler
(src/index.ts:490-509): message, type, code (or `N/A`), HTTP status and
request id when truthy, then the call's own parameters, joined by `" | "`. -/
def creditNoteErrorDetails (e : StripeError) (invoiceId : List Char)
    (memoArg reasonArg : Option (List Char)) : List Char :=
  let pieces : List (List Char) :=
    ["Stripe API Error: ".toList ++ e.message,
     "Error Type: ".toList ++ e.type,
     "Error Code: ".toList ++ e.errCode.getD "N/A".toList]
    ++ (match e.statusCode with
        | some s => if s = 0 then [] else ["HTTP Status: ".toList ++ (toString s).toList]
        | none => [])
    ++ (match e.requestId with
        | some r => if r = [] then [] else ["Request ID: ".toList ++ r]
        | none => [])
    ++ ["Invoice ID: ".toList ++ invoiceId]
    ++ (match memoArg with
        | some m => if m = [] then [] else ["Memo: ".toList ++ m]
        | none => [])
    ++ (match reasonArg with
        | some r => if r = [] then [] else ["Reason: ".toList ++ r]
        | none => [])
  List.intercalate " | ".toList pieces

/-- The Stripe-error branch of the `create_credit_note` catch block
(src/index.ts:488-557): invalid-request errors become `InvalidParams`, with
specialized messages when the Stripe message includes `"No such invoice"`,
`"already has a credit note"` or `"not paid"` (checked in that order);
authentication, permission, and rate-limit errors, and any other Stripe
subtype, become `InternalError`. -/
def classifyCreditNoteStripeError (e : StripeError) (invoiceId : List Char)
    (memoArg reasonArg : Option (List Char)) : McpErr :=
  let detailedMessage := creditNoteErrorDetails e invoiceId memoArg reasonArg
  if e.type = "StripeInvalidRequestError".toList then
    if jsIncludes e.message "No such invoice".toList then
      ⟨.InvalidParams, "Invoice not found: ".toList ++ invoiceId ++ ". ".toList
        ++ detailedMessage⟩
    else if jsIncludes e.message "already has a credit note".toList then
      ⟨.InvalidParams, "Invoice ".toList ++ invoiceId
        ++ " already has a credit note or cannot be credited. ".toList
        ++ detailedMessage⟩
    else if jsIncludes e.message "not paid".toList then
      ⟨.InvalidParams, "Invoice ".toList ++ invoiceId
        ++ " must be paid before creating a credit note. ".toList
        ++ detailedMessage⟩
    else
      ⟨.InvalidParams, detailedMessage⟩
  else if e.type = "StripeAuthenticationError".toList then
    ⟨.InternalError, "Authentication failed. Check STRIPE_API_KEY. ".toList
      ++ detailedMessage⟩
  else if e.type = "StripePermissionError".toList then
    ⟨.InternalError,
      "Permission denied. API key may lack required permissions. ".toList
      ++ detailedMessage⟩
  else if e.type = "StripeRateLimitError".toList then
    ⟨.InternalError,
      "Rate limit exceeded. Please retry after a short delay. ".toList
      ++ detailedMessage⟩
  else
    ⟨.InternalError, detailedMessage⟩

/-- The `create_credit_note` handler up to the remote creation call
(src/index.ts:403-470): validate the arguments, fetch the invoice by id
(the remote `stripe.invoices.retrieve` is a parameter; its failure is
classified through the catch block), and build the creation request
crediting the invoice's full total. Returns the remote creation request
that would be submitted. -/
def create_credit_note (invoiceIdArg memoArg reasonArg : Option (List Char))
    (retrieveInvoice : List Char → Except StripeError Invoice) :
    Except McpErr CreditNoteCreateParams :=
  match validateCreditNoteArgs invoiceIdArg reasonArg with
  | .error e => .error e
  | .ok _ =>
    match retrieveInvoice (invoiceIdArg.getD []) with
    | .error e =>
      .error (classifyCreditNoteStripeError e (invoiceIdArg.getD []) memoArg
        reasonArg)
    | .ok invoice =>
      .ok (buildCreditNoteParams (invoiceIdArg.getD []) memoArg reasonArg
        invoice)

/-- The single-quote character, the delimiter of the value in the emitted
search-query fragment. -/
def singleQuote : Char := Char.ofNat 39

/-! Helper lemmas about the JS string-operation models. -/

theorem splitOnChar_ne_nil (sep : Char) (s : List Char) :
    splitOnChar sep s ≠ [] := by
  cases s with
  | nil => simp [splitOnChar]
  | cons c cs =>
    simp only [splitOnChar]
    split <;> simp

theorem splitOnChar_cons_shape (sep : Char) (s : List Char) :
    ∃ h t, splitOnChar sep s = h :: t := by
  cases heq : splitOnChar sep s with
  | nil => exact absurd heq (splitOnChar_ne_nil sep s)
  | cons h t => exact ⟨h, t, rfl⟩

theorem joinSep_splitOnChar (sep : Char) (s : List Char) :
    joinSep sep (splitOnChar sep s) = s := by
  induction s with
  | nil => rfl
  | cons c cs ih =>
    obtain ⟨h, t, heq⟩ := splitOnChar_cons_shape sep cs
    rw [heq] at ih
    by_cases hc : c = sep
    · subst hc
      simp [splitOnChar, heq, joinSep, ih]
    · cases t with
      | nil =>
        simp [joinSep] at ih
        simp [splitOnChar, hc, heq, joinSep, ih]
      | cons y ys =>
        simp [joinSep] at ih ⊢
        simp [splitOnChar, hc, heq, joinSep, ih]

theorem splitOnChar_headI (sep : Char) (s : List Char) :
    (splitOnChar sep s).headI = s.takeWhile (fun c => c != sep) := by
  induction s with
  | nil => rfl
  | cons c cs ih =>
    by_cases hc : c = sep
    · subst hc
      simp [splitOnChar, List.takeWhile_cons]
    · simp [splitOnChar, hc, List.takeWhile_cons, ih]

theorem joinSep_splitOnChar_tail (sep : Char) (s : List Char) :
    joinSep sep ((splitOnChar sep s).tail) =
      (s.dropWhile (fun c => c != sep)).tail := by
  induction s with
  | nil => rfl
  | cons c cs ih =>
    by_cases hc : c = sep
    · subst hc
      simp [splitOnChar, List.dropWhile_cons, joinSep_splitOnChar]
    · obtain ⟨h, t, heq⟩ := splitOnChar_cons_shape sep cs
      rw [heq] at ih
      simp [splitOnChar, hc, heq, List.dropWhile_cons] at ih ⊢
      exact ih

theorem two_le_splitOnChar_length_iff (sep : Char) (s : List Char) :
    2 ≤ (splitOnChar sep s).length ↔ sep ∈ s := by
  induction s with
  | nil => simp [splitOnChar]
  | cons c cs ih =>
    obtain ⟨h, t, heq⟩ := splitOnChar_cons_shape sep cs
    by_cases hc : c = sep
    · subst hc
      simp [splitOnChar, heq]
    · rw [heq] at ih
      simp [splitOnChar, hc, heq] at ih ⊢
      constructor
      · intro hlen
        exact Or.inr (ih.1 (by omega))
      · intro hmem
        rcases hmem with hmem | hmem
        · exact absurd hmem.symm hc
        · have := ih.2 hmem
          omega

theorem splitOnChar_append_cons (sep : Char) (rest : List Char) :
    ∀ key : List Char, sep ∉ key →
      splitOnChar sep (key ++ sep :: rest) = key :: splitOnChar sep rest := by
  intro key
  induction key with
  | nil =>
    intro _
    simp [splitOnChar]
  | cons c k ih =>
    intro hk
    have hc : c ≠ sep := by
      rintro rfl
      exact hk (List.mem_cons_self _ _)
    have hk2 : sep ∉ k := fun hmem => hk (List.mem_cons_of_mem c hmem)
    simp [splitOnChar, hc, ih hk2]

theorem escapeQuotes_eq_self : ∀ v : List Char, '"' ∉ v → escapeQuotes v = v := by
  intro v
  induction v with
  | nil =>
    intro _
    rfl
  | cons c cs ih =>
    intro hv
    have hc : c ≠ '"' := by
      rintro rfl
      exact hv (List.mem_cons_self _ _)
    have hcs : '"' ∉ cs := fun hmem => hv (List.mem_cons_of_mem c hmem)
    simp [escapeQuotes, hc, ih hcs]

/-! Claim theorems. -/

/-- C8: `buildMetadataSearchQuery` fails exactly when the input contains no
`:` separator, or the part before the first separator is empty after
trimming, or the part after the first separator is empty after trimming;
for every other input it returns a query string. -/
theorem buildQuery_fails_iff (s : List Char) :
    (∃ m, buildMetadataSearchQuery s = .error m) ↔
      (':' ∉ s ∨ jsTrim (s.takeWhile (fun c => c != ':')) = []
        ∨ jsTrim ((s.dropWhile (fun c => c != ':')).tail) = []) := by
  unfold buildMetadataSearchQuery
  by_cases hlen : (splitOnChar ':' s).length < 2
  · have hmem : ':' ∉ s := by
      rw [← two_le_splitOnChar_length_iff ':' s]
      omega
    simp [hlen, hmem]
  · have hmem : ':' ∈ s :=
      (two_le_splitOnChar_length_iff ':' s).1 (by omega)
    rw [if_neg hlen]
    rw [List.drop_one, splitOnChar_headI, joinSep_splitOnChar_tail]
    by_cases hkv : jsTrim (s.takeWhile (fun c => c != ':')) = []
        ∨ jsTrim ((s.dropWhile (fun c => c != ':')).tail) = []
    · simp [hkv, hmem]
    · simp [hkv, hmem]

/-- C8 witness: the input `"order_id:12345"` has a separator and non-empty
trimmed halves, so the builder succeeds on it; the inputs `":value"`,
`"key:"` and `"novalue"` satisfy the failure condition. -/
theorem buildQuery_fails_iff_witness :
    (¬ (':' ∉ "order_id:12345".toList
        ∨ jsTrim ("order_id:12345".toList.takeWhile (fun c => c != ':')) = []
        ∨ jsTrim (("order_id:12345".toList.dropWhile (fun c => c != ':')).tail) = [])) ∧
    (∃ m, buildMetadataSearchQuery ":value".toList = .error m) ∧
    (∃ m, buildMetadataSearchQuery "key:".toList = .error m) ∧
    (∃ m, buildMetadataSearchQuery "novalue".toList = .error m) := by
  refine ⟨?_, ?_, ?_, ?_⟩
  · intro hcond
    obtain ⟨m, hm⟩ := (buildQuery_fails_iff "order_id:12345".toList).2 hcond
    rw [show buildMetadataSearchQuery "order_id:12345".toList =
        .ok "metadata['order_id']:'12345'".toList from rfl] at hm
    cases hm
  · exact (buildQuery_fails_iff ":value".toList).2 (by decide)
  · exact (buildQuery_fails_iff "key:".toList).2 (by decide)
  · exact (buildQuery_fails_iff "novalue".toList).2 (by decide)

/-- C6 counterexample: the key `"a "` and value `"b"` are non-empty, contain
no quote character, and the key contains no separator, yet
`buildMetadataSearchQuery "a :b"` returns `metadata['a']:'b'` (the trimmed
key), not the claimed literal `metadata['a ']:'b'`. -/
theorem buildQuery_literal_counterexample :
    buildMetadataSearchQuery "a :b".toList = .ok "metadata['a']:'b'".toList ∧
    "metadata['a']:'b'".toList ≠ "metadata['a ']:'b'".toList :=
  ⟨by rfl, by decide⟩

/-- C6 amended: for all non-empty key and value strings containing no quote
characters, whose key contains no separator, and which carry no leading or
trailing whitespace (so trimming leaves them unchanged),
`buildMetadataSearchQuery` applied to `key ++ ":" ++ value` returns exactly
the literal `metadata['key']:'value'`. -/
theorem buildQuery_literal (key value : List Char)
    (hk : key ≠ []) (hv : value ≠ [])
    (hks : ':' ∉ key)
    (hkdq : '"' ∉ key) (hksq : singleQuote ∉ key)
    (hvdq : '"' ∉ value) (hvsq : singleQuote ∉ value)
    (htk : jsTrim key = key) (htv : jsTrim value = value) :
    buildMetadataSearchQuery (key ++ ':' :: value) =
      .ok ("metadata['".toList ++ key ++ "']:'".toList ++ value
            ++ "'".toList) := by
  unfold buildMetadataSearchQuery
  rw [splitOnChar_append_cons ':' value key hks]
  obtain ⟨h, t, heq⟩ := splitOnChar_cons_shape ':' value
  have hlen : ¬ (key :: splitOnChar ':' value).length < 2 := by
    simp [heq]
  rw [if_neg hlen]
  simp only [List.headI_cons, List.drop_succ_cons, List.drop_zero]
  rw [joinSep_splitOnChar, htk, htv, escapeQuotes_eq_self value hvdq]
  simp [hk, hv]

/-- C6 witness: `buildMetadataQuery "key:value"` yields exactly
`metadata['key']:'value'`. -/
theorem buildQuery_literal_witness :
    buildMetadataSearchQuery "key:value".toList =
      .ok "metadata['key']:'value'".toList := by
  have hthm := buildQuery_literal "key".toList "value".toList
    (by decide) (by decide) (by decide) (by decide) (by decide) (by decide)
    (by decide) (by decide) (by decide)
  exact hthm

/-- C7: the builder splits only at the first separator: for an input of the
form `key ++ ":" ++ rest` where the key part contains no separator, the key
is the (trimmed) part before the first separator and the value is the whole
(trimmed) remainder, any further separators staying inside the value. -/
theorem buildQuery_first_separator (key rest : List Char)
    (hks : ':' ∉ key) (hk : jsTrim key ≠ []) (hr : jsTrim rest ≠ []) :
    buildMetadataSearchQuery (key ++ ':' :: rest) =
      .ok ("metadata['".toList ++ jsTrim key ++ "']:'".toList
            ++ escapeQuotes (jsTrim rest) ++ "'".toList) := by
  unfold buildMetadataSearchQuery
  rw [splitOnChar_append_cons ':' rest key hks]
  obtain ⟨h, t, heq⟩ := splitOnChar_cons_shape ':' rest
  have hlen : ¬ (key :: splitOnChar ':' rest).length < 2 := by
    simp [heq]
  rw [if_neg hlen]
  simp only [List.headI_cons, List.drop_succ_cons, List.drop_zero]
  rw [joinSep_splitOnChar]
  simp [hk, hr]

/-- C7 witness: `"url:https://x.com/a:b"` splits into key `"url"` and value
`"https://x.com/a:b"`; the separators after the first remain in the value. -/
theorem buildQuery_first_separator_witness :
    buildMetadataSearchQuery "url:https://x.com/a:b".toList =
      .ok "metadata['url']:'https://x.com/a:b'".toList := by
  have hthm := buildQuery_first_separator "url".toList
    "https://x.com/a:b".toList (by decide) (by decide) (by decide)
  exact hthm

/-- C1: the quote character delimiting the value in the emitted fragment is
the single quote, yet for the accepted input `"key:it's"` the emitted value
contains that single quote and the output contains no backslash at all, so
the delimiting quote appears unescaped inside the emitted value: the code
escapes only double quotes and therefore violates the claim. -/
theorem delimiter_quote_left_unescaped :
    buildMetadataSearchQuery "key:it's".toList =
      .ok ("metadata['key']:'".toList ++ "it's".toList ++ "'".toList) ∧
    singleQuote ∈ "it's".toList ∧
    '\\' ∉ ("metadata['key']:'".toList ++ "it's".toList ++ "'".toList) :=
  ⟨by rfl, by decide, by decide⟩

/-- C3: on the search path, the builder's empty-key/value validation error
(raised for `":value"`) is delivered as `InternalError` with an
`Unexpected error:` prefix, not as `InvalidParams` with the message
verbatim, because the classifier's case-sensitive `includes("metadata")`
check does not match the message `"Metadata key and value cannot be
empty"`. -/
theorem emptyKeyValue_error_misclassified :
    search_invoices (some ":value".toList) none none =
      .error ⟨.InternalError,
        "Unexpected error: Metadata key and value cannot be empty".toList⟩ ∧
    jsIncludes emptyKeyValueMsg "metadata".toList = false :=
  ⟨by rfl, by rfl⟩

/-- C2: for every run of `create_credit_note` that reaches the remote
creation call, the `amount` of the submitted creation request equals the
total of the invoice fetched for the given id. -/
theorem creditNote_amount_eq_invoice_total
    (invoiceIdArg memoArg reasonArg : Option (List Char))
    (retrieveInvoice : List Char → Except StripeError Invoice)
    (p : CreditNoteCreateParams)
    (hrun : create_credit_note invoiceIdArg memoArg reasonArg retrieveInvoice
      = .ok p) :
    ∃ invoice, retrieveInvoice (invoiceIdArg.getD []) = .ok invoice ∧
      p.amount = invoice.total := by
  unfold create_credit_note at hrun
  cases hval : validateCreditNoteArgs invoiceIdArg reasonArg with
  | error e =>
    rw [hval] at hrun
    cases hrun
  | ok u =>
    rw [hval] at hrun
    cases hret : retrieveInvoice (invoiceIdArg.getD []) with
    | error e =>
      rw [hret] at hrun
      cases hrun
    | ok invoice =>
      rw [hret] at hrun
      cases hrun
      exact ⟨invoice, rfl, rfl⟩

/-- C2 witness: with a retrieval returning an invoice of total 4200, the
submitted creation request carries amount 4200. -/
theorem creditNote_amount_eq_invoice_total_witness :
    ∃ invoice,
      (fun _ : List Char =>
          (Except.ok ⟨4200, "usd".toList⟩ : Except StripeError Invoice))
        ((some "in_abc".toList).getD []) = .ok invoice ∧
      (⟨"in_abc".toList, 4200, none, none⟩ : CreditNoteCreateParams).amount
        = invoice.total :=
  creditNote_amount_eq_invoice_total (some "in_abc".toList) none none
    (fun _ => .ok ⟨4200, "usd".toList⟩)
    ⟨"in_abc".toList, 4200, none, none⟩ (by rfl)

/-- C4 counterexample: the id `"in_"` has the correct prefix but an empty
remainder, so it does not match `^in_[A-Za-z0-9]+$`; yet local validation
accepts it and the handler proceeds to the remote fetch and builds the
creation request instead of failing `InvalidParams`. -/
theorem creditNote_id_pattern_unenforced :
    validateCreditNoteArgs (some "in_".toList) none = .ok () ∧
    create_credit_note (some "in_".toList) none none
        (fun _ => .ok ⟨100, "usd".toList⟩) =
      .ok ⟨"in_".toList, 100, none, none⟩ :=
  ⟨by rfl, by rfl⟩

/-- C4 amended: for every `create_credit_note` call whose `invoice_id` is
missing, empty, or does not start with `"in_"`, the call fails with
`InvalidParams` before any remote call (for every retrieval function); ids
that start with `"in_"` pass the local invoice-id validation regardless of
the remainder, even when it is empty or non-alphanumeric. -/
theorem creditNote_rejects_nonprefixed_ids
    (invoiceIdArg memoArg reasonArg : Option (List Char))
    (retrieveInvoice : List Char → Except StripeError Invoice)
    (h : ∀ id, invoiceIdArg = some id → "in_".toList.isPrefixOf id = false) :
    ∃ m, create_credit_note invoiceIdArg memoArg reasonArg retrieveInvoice =
      .error ⟨.InvalidParams, m⟩ := by
  have hval : ∃ m, validateCreditNoteArgs invoiceIdArg reasonArg =
      .error ⟨.InvalidParams, m⟩ := by
    unfold validateCreditNoteArgs
    cases invoiceIdArg with
    | none => simp
    | some id =>
      have hpre : ['i', 'n', '_'].isPrefixOf id = false := h id rfl
      by_cases hid : id = []
      · subst hid
        simp
      · simp [hid, hpre]
  obtain ⟨m, hm⟩ := hval
  refine ⟨m, ?_⟩
  unfold create_credit_note
  rw [hm]

/-- C4 amended witness: an id with the wrong prefix is rejected with
`InvalidParams` whatever the remote would have answered. -/
theorem creditNote_rejects_nonprefixed_ids_witness :
    ∃ m, create_credit_note (some "xx_9".toList) none none
        (fun _ => .ok ⟨100, "usd".toList⟩) =
      .error ⟨.InvalidParams, m⟩ :=
  creditNote_rejects_nonprefixed_ids (some "xx_9".toList) none none
    (fun _ => .ok ⟨100, "usd".toList⟩)
    (by
      intro id hid
      cases hid
      rfl)

/-- C5: a Stripe invalid-request error whose message includes `"not paid"`
and matches neither earlier pattern is classified `InvalidParams` with the
paid-status-specific message, not the generic invalid-params fallback. -/
theorem unpaid_invoice_specific_message (e : StripeError)
    (invoiceId : List Char) (memoArg reasonArg : Option (List Char))
    (htype : e.type = "StripeInvalidRequestError".toList)
    (h1 : jsIncludes e.message "No such invoice".toList = false)
    (h2 : jsIncludes e.message "already has a credit note".toList = false)
    (h3 : jsIncludes e.message "not paid".toList = true) :
    classifyCreditNoteStripeError e invoiceId memoArg reasonArg =
      ⟨.InvalidParams, "Invoice ".toList ++ invoiceId
        ++ " must be paid before creating a credit note. ".toList
        ++ creditNoteErrorDetails e invoiceId memoArg reasonArg⟩ := by
  simp only [classifyCreditNoteStripeError]
  rw [htype, h1, h2, h3]
  simp

/-- C5 witness: the message `"This invoice is not paid"` triggers the
paid-status-specific `InvalidParams` message. -/
theorem unpaid_invoice_specific_message_witness :
    classifyCreditNoteStripeError
        ⟨"StripeInvalidRequestError".toList,
         "This invoice is not paid".toList, none, none, none⟩
        "in_123".toList none none =
      ⟨.InvalidParams, "Invoice ".toList ++ "in_123".toList
        ++ " must be paid before creating a credit note. ".toList
        ++ creditNoteErrorDetails
            ⟨"StripeInvalidRequestError".toList,
             "This invoice is not paid".toList, none, none, none⟩
            "in_123".toList none none⟩ :=
  unpaid_invoice_specific_message
    ⟨"StripeInvalidRequestError".toList,
     "This invoice is not paid".toList, none, none, none⟩
    "in_123".toList none none rfl (by rfl) (by rfl) (by rfl)

/-- The limit of the search request built by a successful `search_invoices`
run: the falsy-default of 10 followed by `Math.min` with 100. -/
theorem search_invoices_ok_limit (meta : List Char) (limitArg : Option Int)
    (pageArg : Option (List Char)) (sp : InvoiceSearchParams)
    (hrun : search_invoices (some meta) limitArg pageArg = .ok sp) :
    sp.limit = min (jsLimitOrDefault limitArg) 100 := by
  unfold search_invoices at hrun
  by_cases hm : meta = []
  · subst hm
    simp at hrun
  · rw [if_neg (by simp [hm])] at hrun
    cases hq : buildMetadataSearchQuery ((some meta).getD []) with
    | error m =>
      rw [hq] at hrun
      cases hrun
    | ok q =>
      rw [hq] at hrun
      cases hrun
      rfl

/-- C9: for every `search_invoices` call with a caller-supplied limit above
100 that reaches the remote call, the limit of the issued search request is
exactly 100. -/
theorem search_limit_clamped (meta : List Char) (n : Int)
    (pageArg : Option (List Char)) (sp : InvoiceSearchParams)
    (hn : 100 < n)
    (hrun : search_invoices (some meta) (some n) pageArg = .ok sp) :
    sp.limit = 100 := by
  have hl := search_invoices_ok_limit meta (some n) pageArg sp hrun
  have hn0 : ¬ n = 0 := by omega
  rw [hl]
  simp only [jsLimitOrDefault, hn0, if_false]
  exact min_eq_right (by omega)

/-- C9 witness: a caller limit of 500 is issued as 100. -/
theorem search_limit_clamped_witness :
    (100 : Int) < 500 ∧
    (⟨"metadata['a']:'b'".toList, 100, none⟩ : InvoiceSearchParams).limit
      = 100 :=
  ⟨by decide,
   search_limit_clamped "a:b".toList 500 none
     ⟨"metadata['a']:'b'".toList, 100, none⟩ (by decide) (by rfl)⟩

/-- C10: a caller-supplied limit of 0 (or a missing limit, both falsy) is
silently replaced by the default 10 and the remote request is issued with
limit 10 rather than the call being rejected; a negative limit, being
non-falsy, is issued unclamped. -/
theorem falsy_limit_defaulted_negative_unclamped (meta : List Char)
    (pageArg : Option (List Char)) :
    (∀ sp, search_invoices (some meta) (some 0) pageArg = .ok sp →
      sp.limit = 10) ∧
    (∀ sp, search_invoices (some meta) none pageArg = .ok sp →
      sp.limit = 10) ∧
    (∀ n sp, n < 0 → search_invoices (some meta) (some n) pageArg = .ok sp →
      sp.limit = n) := by
  refine ⟨?_, ?_, ?_⟩
  · intro sp hrun
    have hl := search_invoices_ok_limit meta (some 0) pageArg sp hrun
    rw [hl, show jsLimitOrDefault (some 0) = 10 from rfl]
    exact min_eq_left (by norm_num)
  · intro sp hrun
    have hl := search_invoices_ok_limit meta none pageArg sp hrun
    rw [hl, show jsLimitOrDefault none = 10 from rfl]
    exact min_eq_left (by norm_num)
  · intro n sp hn hrun
    have hl := search_invoices_ok_limit meta (some n) pageArg sp hrun
    have hn0 : ¬ n = 0 := by omega
    rw [hl]
    simp only [jsLimitOrDefault, hn0, if_false]
    exact min_eq_left (by omega)

/-- C10 witness: with metadata `"a:b"`, a limit of 0 is issued as 10 and a
limit of -5 is issued as -5. -/
theorem falsy_limit_defaulted_negative_unclamped_witness :
    (⟨"metadata['a']:'b'".toList, 10, none⟩ : InvoiceSearchParams).limit
      = 10 ∧
    (-5 : Int) < 0 ∧
    (⟨"metadata['a']:'b'".toList, -5, none⟩ : InvoiceSearchParams).limit
      = -5 := by
  refine ⟨?_, by decide, ?_⟩
  · exact (falsy_limit_defaulted_negative_unclamped "a:b".toList none).1
      ⟨"metadata['a']:'b'".toList, 10, none⟩ (by rfl)
  · exact (falsy_limit_defaulted_negative_unclamped "a:b".toList none).2.2
      (-5) ⟨"metadata['a']:'b'".toList, -5, none⟩ (by decide) (by rfl)

end StripeMcp
